import Mathlib

/-!
Shallow embedding of `src/nsdbilite.c`, the NaviServer nsdbi driver for
sqlite3, together with proofs about its statement-lifecycle logic.

Engine behaviour (sqlite3) is modelled by oracles: a step oracle
`engine : Nat → Nat` gives the result code of the k-th `sqlite3_step`
call inside one driver operation, a bind oracle `bindRc : Nat → Nat`
gives the result of binding value `i`, and the connection's pending
error state is the pair `(errcode, errmsg)` that `sqlite3_errcode` /
`sqlite3_errmsg` would report.
-/

namespace NsdbiLite

/-! Result codes from sqlite3.h used by the driver. -/

def SQLITE_OK : Nat := 0
def SQLITE_ERROR : Nat := 1
def SQLITE_BUSY : Nat := 5
def SQLITE_NOMEM : Nat := 7
def SQLITE_SCHEMA : Nat := 17
def SQLITE_MISUSE : Nat := 21
def SQLITE_ROW : Nat := 100
def SQLITE_DONE : Nat := 101

/-! Dynamic column type codes from sqlite3.h. -/

def SQLITE_INTEGER : Nat := 1
def SQLITE_TEXT : Nat := 3
def SQLITE_BLOB : Nat := 4
def SQLITE_NULL : Nat := 5

/-! NaviServer status codes. -/

def NS_OK : Int := 0
def NS_ERROR : Int := -1

/-- How a driver operation reports its outcome to the host:
`silent` (no exception touched), `exception code msg`
(`Dbi_SetException(handle, code, msg)`), or `fatal msg` (`Ns_Fatal`,
which terminates the process). -/
inductive DbiReport where
  | silent
  | exception (code : String) (msg : String)
  | fatal (msg : String)
deriving DecidableEq, Repr

/-- ReportException (src/nsdbilite.c:733-741): if the connection's
error code is SQLITE_NOMEM the process is terminated with `Ns_Fatal`;
otherwise the engine's error message is set as a "SQLIT" exception on
the handle. -/
def ReportException (errcode : Nat) (errmsg : String) : DbiReport :=
  if errcode = SQLITE_NOMEM then
    DbiReport.fatal ("dbilite: SQLITE_NOMEM: " ++ errmsg)
  else
    DbiReport.exception "SQLIT" errmsg

/-- The message of the busy-exhausted exception in Step
(src/nsdbilite.c:696-697), formatted from the configured retry count. -/
def busyMsg (n : Nat) : String :=
  "dbisqlite: error executing statement: database still busy after "
    ++ toString n ++ " retries."

/-- The retry loop of Step (src/nsdbilite.c:680-686):

    retries = ltHandle->ltCfg->retries;
    do {
        if ((rc = sqlite3_step(st)) == SQLITE_BUSY) {
            Ns_ThreadYield();
        }
    } while (rc == SQLITE_BUSY && --retries > 0);

`retries` is the configured budget (a non-negative int, clamped to
[0, INT_MAX] at configuration time) and `k` counts the `sqlite3_step`
calls already made in this operation.  The loop body always runs once;
after a busy attempt it continues iff the pre-decremented counter is
still positive, i.e. iff `retries ≥ 2` before the decrement.  The
cases `0` and `1` therefore both make exactly one attempt. -/
def stepLoop (engine : Nat → Nat) : Nat → Nat → Nat
  | 0, k => engine k
  | 1, k => engine k
  | n + 2, k =>
    if engine k = SQLITE_BUSY then stepLoop engine (n + 1) (k + 1) else engine k

/-- The switch on the loop's final result code in Step
(src/nsdbilite.c:688-711).  SQLITE_ROW and SQLITE_DONE pass through;
SQLITE_BUSY becomes SQLITE_ERROR with the busy-exhausted message;
SQLITE_MISUSE becomes SQLITE_ERROR with the internal-bug message;
SQLITE_ERROR and every other code fall to the default branch, which
calls ReportException and returns SQLITE_ERROR. -/
def stepSwitch (retriesCfg : Nat) (errcode : Nat) (errmsg : String)
    (rc : Nat) : Nat × DbiReport :=
  if rc = SQLITE_ROW ∨ rc = SQLITE_DONE then
    (rc, DbiReport.silent)
  else if rc = SQLITE_BUSY then
    (SQLITE_ERROR, DbiReport.exception "SQLIT" (busyMsg retriesCfg))
  else if rc = SQLITE_MISUSE then
    (SQLITE_ERROR, DbiReport.exception "SQLIT" "dbilite: Bug: SQLITE_MISUSE")
  else
    (SQLITE_ERROR, ReportException errcode errmsg)

/-- Step (src/nsdbilite.c:673-714): run the retry loop, then map the
result through the switch.  Returns the sqlite result code handed to
the caller together with the report made on the handle. -/
def Step (retriesCfg : Nat) (engine : Nat → Nat) (errcode : Nat)
    (errmsg : String) : Nat × DbiReport :=
  stepSwitch retriesCfg errcode errmsg (stepLoop engine retriesCfg 0)

/-- The sqlite API calls a driver operation can make on the native
statement.  `finalize` (`sqlite3_finalize`) and `reprepare`
(`sqlite3_prepare` / `sqlite3_prepare_v2`) are included so that their
absence from a trace is expressible. -/
inductive LiteCall where
  | step
  | yield
  | finalize
  | reprepare
deriving DecidableEq, Repr

/-- The trace of native-statement calls made by the retry loop of Step
(src/nsdbilite.c:680-686): one `sqlite3_step` per iteration, followed
by `Ns_ThreadYield` whenever that attempt returned SQLITE_BUSY.  The
body of Step makes no other calls on the native statement: in
particular it never calls `sqlite3_finalize` or a prepare function. -/
def stepLoopCalls (engine : Nat → Nat) : Nat → Nat → List LiteCall
  | 0, k =>
    if engine k = SQLITE_BUSY then [LiteCall.step, LiteCall.yield]
    else [LiteCall.step]
  | 1, k =>
    if engine k = SQLITE_BUSY then [LiteCall.step, LiteCall.yield]
    else [LiteCall.step]
  | n + 2, k =>
    if engine k = SQLITE_BUSY then
      LiteCall.step :: LiteCall.yield :: stepLoopCalls engine (n + 1) (k + 1)
    else [LiteCall.step]

/-- All native-statement calls made by one invocation of Step
(src/nsdbilite.c:673-714): exactly the calls of its retry loop. -/
def StepCalls (retriesCfg : Nat) (engine : Nat → Nat) : List LiteCall :=
  stepLoopCalls engine retriesCfg 0

/-- The switch in NextRow (src/nsdbilite.c:426-437), which has no
default branch; `status` is uninitialized when Step returns anything
other than SQLITE_ROW, SQLITE_DONE or SQLITE_ERROR, modelled as
`none`.  The result pairs the status with the (possibly updated)
`*endPtr`. -/
def nextRowSwitch (rc : Nat) (endIn : Nat) : Option (Int × Nat) :=
  if rc = SQLITE_ROW then some (NS_OK, endIn)
  else if rc = SQLITE_DONE then some (NS_OK, 1)
  else if rc = SQLITE_ERROR then some (NS_ERROR, endIn)
  else none

/-- NextRow (src/nsdbilite.c:421-440): step the statement, then
dispatch on the result code. -/
def NextRow (retriesCfg : Nat) (engine : Nat → Nat) (errcode : Nat)
    (errmsg : String) (endIn : Nat) : Option (Int × Nat) :=
  nextRowSwitch (Step retriesCfg engine errcode errmsg).1 endIn

/-- Dbi_Value as seen by Exec's bind loop (src/nsdbilite.c:368-377):
a data pointer (none = NULL), a byte length, and a binary flag. -/
structure DbiValue where
  data : Option (List Nat)
  length : Nat
  binary : Bool

/-- A call to one of the sqlite3 bind functions, recording the 1-based
parameter position and the payload handed to the engine. -/
inductive BindCall where
  | null (pos : Nat)
  | blob (pos : Nat) (bytes : List Nat) (len : Nat)
  | text (pos : Nat) (bytes : List Nat) (len : Nat)
deriving DecidableEq, Repr

/-- The bind call Exec makes for value `i` (src/nsdbilite.c:368-377):
`sqlite3_bind_null(st, i+1)` when the data pointer is NULL,
`sqlite3_bind_blob(st, i+1, data, length, SQLITE_STATIC)` when the
binary flag is set, otherwise
`sqlite3_bind_text(st, i+1, data, length, SQLITE_STATIC)`. -/
def bindCallFor (i : Nat) (v : DbiValue) : BindCall :=
  match v.data with
  | none => BindCall.null (i + 1)
  | some bytes =>
    if v.binary then BindCall.blob (i + 1) bytes v.length
    else BindCall.text (i + 1) bytes v.length

/-- The 1-based native position a bind call targets. -/
def bindPos : BindCall → Nat
  | BindCall.null p => p
  | BindCall.blob p _ _ => p
  | BindCall.text p _ _ => p

/-- The bind loop of Exec (src/nsdbilite.c:368-382), started at index
`i`: make the bind call for each value in order; if the engine reports
anything other than SQLITE_OK for a call (oracle `bindRc`), stop
immediately.  Returns the calls actually made and whether the whole
batch succeeded. -/
def execBindAux (bindRc : Nat → Nat) : Nat → List DbiValue →
    List BindCall × Bool
  | _, [] => ([], true)
  | i, v :: rest =>
    if bindRc i = SQLITE_OK then
      (bindCallFor i v :: (execBindAux bindRc (i + 1) rest).1,
       (execBindAux bindRc (i + 1) rest).2)
    else
      ([bindCallFor i v], false)

/-- The bind calls Exec makes for a value sequence. -/
def execBindCalls (bindRc : Nat → Nat) (values : List DbiValue) :
    List BindCall :=
  (execBindAux bindRc 0 values).1

/-- Whether Exec's bind loop ran to completion without an error. -/
def execBindOk (bindRc : Nat → Nat) (values : List DbiValue) : Bool :=
  (execBindAux bindRc 0 values).2

/-- Exec (src/nsdbilite.c:353-402): bind all values (first failure
aborts with ReportException and NS_ERROR); if the statement has result
columns, return NS_OK without stepping; otherwise step the state
machine once: a row is an internal bug (NS_ERROR with the bug
exception), SQLITE_DONE is NS_OK, anything else is NS_ERROR with
whatever Step reported. -/
def Exec (numCols : Nat) (values : List DbiValue) (bindRc : Nat → Nat)
    (retriesCfg : Nat) (engine : Nat → Nat) (errcode : Nat)
    (errmsg : String) : Int × DbiReport :=
  if execBindOk bindRc values = false then
    (NS_ERROR, ReportException errcode errmsg)
  else if 0 < numCols then
    (NS_OK, DbiReport.silent)
  else
    let s := Step retriesCfg engine errcode errmsg
    if s.1 = SQLITE_ROW then
      (NS_ERROR,
        DbiReport.exception "SQLIT"
          "dbilite: Exec: Bug: DML statement returned rows")
    else if s.1 = SQLITE_DONE then (NS_OK, s.2)
    else (NS_ERROR, s.2)

/-- A sqlite value of the current row in one column: the engine is
dynamically typed per value.  Floating-point values are outside the
scope of the claims that use this type and are omitted. -/
inductive SqliteValue where
  | null
  | integer (i : Int)
  | text (bytes : List Nat)
  | blob (bytes : List Nat)
deriving DecidableEq, Repr

/-- sqlite3_column_type: the dynamic type code of the value. -/
def column_type : SqliteValue → Nat
  | SqliteValue.null => SQLITE_NULL
  | SqliteValue.integer _ => SQLITE_INTEGER
  | SqliteValue.text _ => SQLITE_TEXT
  | SqliteValue.blob _ => SQLITE_BLOB

/-- The buffer sqlite3_column_text exposes: NULL (empty) for a null
value, the decimal text for an integer, the bytes themselves for text
and blob values. -/
def columnText : SqliteValue → List Nat
  | SqliteValue.null => []
  | SqliteValue.integer i => (toString i).toList.map Char.toNat
  | SqliteValue.text bytes => bytes
  | SqliteValue.blob bytes => bytes

/-- The buffer sqlite3_column_blob exposes: the blob bytes for a blob,
and the same buffer as the text accessor for everything else. -/
def columnBlob : SqliteValue → List Nat
  | SqliteValue.blob bytes => bytes
  | v => columnText v

/-- sqlite3_column_bytes: the byte length of the value in the
representation the driver reads (blob bytes for a blob, text bytes
otherwise); 0 for a null value. -/
def column_bytes (v : SqliteValue) : Nat :=
  match v with
  | SqliteValue.blob bytes => bytes.length
  | _ => (columnText v).length

/-- The source buffer ColumnValue reads (src/nsdbilite.c:496-500):
column_blob when the dynamic type is SQLITE_BLOB, column_text
otherwise. -/
def columnSrc (col : SqliteValue) : List Nat :=
  if column_type col = SQLITE_BLOB then columnBlob col else columnText col

/-- memcpy(dest, src, n) on byte lists: the first `n` bytes of `dest`
are replaced by the first `n` bytes of `src`; the rest of `dest` is
untouched. -/
def memcpy (dest src : List Nat) (n : Nat) : List Nat :=
  src.take n ++ dest.drop n

/-- ColumnValue (src/nsdbilite.c:489-504): pick the source buffer by
dynamic type, then `memcpy(value, src, MIN(length, sqlite3_column_bytes(st, index)))`
into the caller's buffer `dest` (whose capacity is its list length). -/
def ColumnValue (col : SqliteValue) (dest : List Nat) : List Nat :=
  memcpy dest (columnSrc col) (min dest.length (column_bytes col))

/-- ColumnLength (src/nsdbilite.c:460-470):
`*lengthPtr = sqlite3_column_bytes(st, index)` and
`*binaryPtr = (sqlite3_column_type(st, index) == SQLITE_BLOB)`. -/
def ColumnLength (col : SqliteValue) : Nat × Bool :=
  (column_bytes col, column_type col == SQLITE_BLOB)

/-- Dbi_TransactionCmd values dispatched by Transaction
(src/nsdbilite.c:568-581). -/
inductive TransactionCmd where
  | begin
  | commit
  | rollback
deriving DecidableEq, Repr

/-- Dbi_Isolation levels; Transaction only distinguishes
Dbi_Serializable. -/
inductive Isolation where
  | readUncommitted
  | readCommitted
  | repeatableRead
  | serializable
deriving DecidableEq, Repr

/-- The literal SQL Transaction issues for a command
(src/nsdbilite.c:568-581): "begin exclusive" for a serializable begin,
"begin" otherwise, "commit", "rollback". -/
def transactionSql (cmd : TransactionCmd) (isolation : Isolation) : String :=
  match cmd with
  | TransactionCmd.begin =>
    if isolation = Isolation.serializable then "begin exclusive" else "begin"
  | TransactionCmd.commit => "commit"
  | TransactionCmd.rollback => "rollback"

/-- Transaction (src/nsdbilite.c:553-593): at nesting depth > 0, set
the "no nested transactions" exception and return NS_ERROR without
contacting the engine (third component `none` = no SQL issued).  At
depth 0, select the SQL text, prepare and step it (oracles `prepRc`,
`stepRc`); if either fails, ReportException and NS_ERROR, else NS_OK.
The third component records the SQL handed to the engine. -/
def Transaction (depth : Nat) (cmd : TransactionCmd)
    (isolation : Isolation) (prepRc : String → Nat)
    (stepRc : String → Nat) (errcode : Nat) (errmsg : String) :
    Int × DbiReport × Option String :=
  if depth ≠ 0 then
    (NS_ERROR,
      DbiReport.exception "SQLIT" "dbilite does not support nested transactions",
      none)
  else
    let sql := transactionSql cmd isolation
    if prepRc sql ≠ SQLITE_OK ∨ stepRc sql ≠ SQLITE_DONE then
      (NS_ERROR, ReportException errcode errmsg, some sql)
    else
      (NS_OK, DbiReport.silent, some sql)

/-- The driver-side compiled-statement slot contents
(stmt->driverData): the native statement exposes its parameter and
column counts at prepare time. -/
structure CompiledStmt where
  nVars : Nat
  nCols : Nat
deriving DecidableEq, Repr

/-- Prepare (src/nsdbilite.c:283-303): if the slot is already
populated, return NS_OK untouched without calling the engine (last
component records whether sqlite3_prepare_v2 was invoked).  Otherwise
compile (oracle `compileResult`; `none` = failure): on failure
ReportException and NS_ERROR with the slot left empty, on success
install the compiled statement and return NS_OK. -/
def Prepare (slot : Option CompiledStmt)
    (compileResult : Option CompiledStmt) (errcode : Nat)
    (errmsg : String) : Int × Option CompiledStmt × DbiReport × Bool :=
  match slot with
  | some st => (NS_OK, some st, DbiReport.silent, false)
  | none =>
    match compileResult with
    | none => (NS_ERROR, none, ReportException errcode errmsg, true)
    | some st => (NS_OK, some st, DbiReport.silent, true)

/-! Helper lemmas about the retry loop. -/

/-- If the first `N` step attempts are busy, attempt `N` (0-based) is
not busy, and `N` is strictly below the budget, the loop returns the
result of attempt `N`. -/
theorem stepLoop_first_non_busy (engine : Nat → Nat) :
    ∀ (N R k : Nat), (∀ j, j < N → engine (k + j) = SQLITE_BUSY) →
      engine (k + N) ≠ SQLITE_BUSY → N < R →
      stepLoop engine R k = engine (k + N) := by
  intro N
  induction N with
  | zero =>
    intro R k _ hnb hR
    match R with
    | 0 => omega
    | 1 => simp [stepLoop]
    | n + 2 =>
      unfold stepLoop
      rw [if_neg (by simpa using hnb)]
      simp
  | succ m ih =>
    intro R k hb hnb hR
    have hk : engine k = SQLITE_BUSY := by simpa using hb 0 (by omega)
    match R with
    | 0 => omega
    | 1 => omega
    | n + 2 =>
      unfold stepLoop
      rw [if_pos hk]
      have := ih (n + 1) (k + 1)
        (fun j hj => by
          have := hb (j + 1) (by omega)
          rwa [show k + (j + 1) = k + 1 + j by omega] at this)
        (by rwa [show k + 1 + m = k + (m + 1) by omega])
        (by omega)
      rwa [show k + 1 + m = k + (m + 1) by omega] at this

/-- If every step attempt is busy, the loop exits with SQLITE_BUSY. -/
theorem stepLoop_all_busy (engine : Nat → Nat)
    (h : ∀ j, engine j = SQLITE_BUSY) :
    ∀ (R k : Nat), stepLoop engine R k = SQLITE_BUSY := by
  intro R
  induction R using Nat.strong_induction_on with
  | _ R ih =>
    intro k
    match R with
    | 0 => exact h k
    | 1 => exact h k
    | n + 2 =>
      unfold stepLoop
      rw [if_pos (h k)]
      exact ih (n + 1) (by omega) (k + 1)

/-- The switch of Step maps every result code to SQLITE_ROW,
SQLITE_DONE or SQLITE_ERROR. -/
theorem stepSwitch_cases (retriesCfg errcode : Nat) (errmsg : String)
    (rc : Nat) :
    (stepSwitch retriesCfg errcode errmsg rc).1 = SQLITE_ROW ∨
    (stepSwitch retriesCfg errcode errmsg rc).1 = SQLITE_DONE ∨
    (stepSwitch retriesCfg errcode errmsg rc).1 = SQLITE_ERROR := by
  unfold stepSwitch
  split
  · rename_i h
    rcases h with h | h
    · exact Or.inl h
    · exact Or.inr (Or.inl h)
  · split
    · exact Or.inr (Or.inr rfl)
    · split
      · exact Or.inr (Or.inr rfl)
      · exact Or.inr (Or.inr rfl)

/-- Claim C10: Step always returns exactly one of the three codes
SQLITE_ROW, SQLITE_DONE or SQLITE_ERROR — every other native result,
including busy-exhausted and misuse, is mapped to SQLITE_ERROR before
returning — and consequently NextRow's result status is defined
(isSome) on every path even though its switch statement has no default
branch. -/
theorem Step_result_total (retriesCfg : Nat) (engine : Nat → Nat)
    (errcode : Nat) (errmsg : String) (endIn : Nat) :
    ((Step retriesCfg engine errcode errmsg).1 = SQLITE_ROW ∨
     (Step retriesCfg engine errcode errmsg).1 = SQLITE_DONE ∨
     (Step retriesCfg engine errcode errmsg).1 = SQLITE_ERROR) ∧
    (NextRow retriesCfg engine errcode errmsg endIn).isSome = true := by
  have h := stepSwitch_cases retriesCfg errcode errmsg
    (stepLoop engine retriesCfg 0)
  refine ⟨h, ?_⟩
  unfold NextRow nextRowSwitch
  have hs : (Step retriesCfg engine errcode errmsg).1
      = (stepSwitch retriesCfg errcode errmsg
          (stepLoop engine retriesCfg 0)).1 := rfl
  rcases h with h1 | h1 | h1 <;>
    simp [hs, h1, SQLITE_ROW, SQLITE_DONE, SQLITE_ERROR]

/-- Claim C8: whenever the driver reports an engine error through
ReportException and the engine's error code is SQLITE_NOMEM, the
process is terminated (Ns_Fatal) instead of returning an error result;
every other engine error code is set on the handle as a "SQLIT"
labeled exception, never process-fatal. -/
theorem ReportException_fatal_iff (errcode : Nat) (errmsg : String) :
    (errcode = SQLITE_NOMEM →
      ReportException errcode errmsg
        = DbiReport.fatal ("dbilite: SQLITE_NOMEM: " ++ errmsg)) ∧
    (errcode ≠ SQLITE_NOMEM →
      ReportException errcode errmsg
        = DbiReport.exception "SQLIT" errmsg) := by
  constructor <;> intro h <;> simp [ReportException, h]

/-- Claim C8 witness: concrete NOMEM and non-NOMEM error codes. -/
theorem ReportException_fatal_iff_witness :
    ReportException SQLITE_NOMEM "out of memory"
      = DbiReport.fatal ("dbilite: SQLITE_NOMEM: " ++ "out of memory")
    ∧ ReportException SQLITE_ERROR "syntax error"
      = DbiReport.exception "SQLIT" "syntax error" :=
  ⟨(ReportException_fatal_iff SQLITE_NOMEM "out of memory").1 rfl,
   (ReportException_fatal_iff SQLITE_ERROR "syntax error").2 (by decide)⟩

/-- Claim C9: Prepare is idempotent per statement object — a
non-empty driver-side slot returns NS_OK without invoking the
compiler and leaves the compiled statement unchanged — and on
compilation failure the slot is left empty so a subsequent Prepare can
retry. -/
theorem Prepare_idempotent (slot compileResult : Option CompiledStmt)
    (errcode : Nat) (errmsg : String) :
    (∀ st, slot = some st →
      Prepare slot compileResult errcode errmsg
        = (NS_OK, some st, DbiReport.silent, false)) ∧
    (slot = none → compileResult = none →
      Prepare slot compileResult errcode errmsg
        = (NS_ERROR, none, ReportException errcode errmsg, true)) := by
  constructor
  · intro st h
    subst h
    rfl
  · intro h hc
    subst h
    subst hc
    rfl

/-- Claim C9 witness: a populated slot is returned unchanged with no
compile call; a failed compile leaves the slot empty. -/
theorem Prepare_idempotent_witness :
    Prepare (some ⟨2, 3⟩) none 0 ""
      = (NS_OK, some ⟨2, 3⟩, DbiReport.silent, false)
    ∧ Prepare none none SQLITE_ERROR "syntax error"
      = (NS_ERROR, none, ReportException SQLITE_ERROR "syntax error", true) :=
  ⟨(Prepare_idempotent (some ⟨2, 3⟩) none 0 "").1 ⟨2, 3⟩ rfl,
   (Prepare_idempotent none none SQLITE_ERROR "syntax error").2 rfl rfl⟩

/-- Claim C6: a null-valued column reports byte length 0 and
classification not-binary, and in general the binary classification is
true exactly when the engine's dynamic per-row column type is
SQLITE_BLOB. -/
theorem ColumnLength_null_and_blob (col : SqliteValue) :
    (col = SqliteValue.null → ColumnLength col = (0, false)) ∧
    ((ColumnLength col).2 = true ↔ column_type col = SQLITE_BLOB) := by
  constructor
  · intro h
    subst h
    rfl
  · cases col <;>
      simp [ColumnLength, column_type, SQLITE_BLOB, SQLITE_NULL,
        SQLITE_INTEGER, SQLITE_TEXT]

/-- Claim C6 witness: the null column evaluates to length 0 and
not-binary. -/
theorem ColumnLength_null_and_blob_witness :
    ColumnLength SqliteValue.null = (0, false) :=
  (ColumnLength_null_and_blob SqliteValue.null).1 rfl

/-- Claim C2: if the engine reports lock contention (SQLITE_BUSY) on
the first N consecutive attempts with N strictly below the configured
retry budget and attempt N then succeeds (row or done), Step succeeds
with that result and no exception; if contention persists for the
entire budget, Step fails with SQLITE_ERROR and the contention-
exhausted Query exception whose reported retry count is the configured
budget itself. -/
theorem Step_contention (R : Nat) (engine : Nat → Nat) (errcode : Nat)
    (errmsg : String) (N : Nat) :
    ((∀ j, j < N → engine j = SQLITE_BUSY) → N < R →
      (engine N = SQLITE_ROW ∨ engine N = SQLITE_DONE) →
      Step R engine errcode errmsg = (engine N, DbiReport.silent)) ∧
    ((∀ j, engine j = SQLITE_BUSY) →
      Step R engine errcode errmsg
        = (SQLITE_ERROR, DbiReport.exception "SQLIT" (busyMsg R))) := by
  constructor
  · intro hb hR hsucc
    have hnb : engine N ≠ SQLITE_BUSY := by
      rcases hsucc with h | h <;> rw [h] <;> decide
    have hloop : stepLoop engine R 0 = engine N := by
      have := stepLoop_first_non_busy engine N R 0
        (fun j hj => by simpa using hb j hj) (by simpa using hnb) hR
      simpa using this
    unfold Step
    rw [hloop]
    unfold stepSwitch
    rw [if_pos hsucc]
  · intro hb
    have hloop : stepLoop engine R 0 = SQLITE_BUSY :=
      stepLoop_all_busy engine hb R 0
    unfold Step
    rw [hloop]
    unfold stepSwitch
    rw [if_neg (by decide), if_pos rfl]

/-- Claim C2 witness: two busy attempts then a row within a budget of
three succeeds silently; contention persisting forever with budget
three fails with the exhausted message reporting three retries. -/
theorem Step_contention_witness :
    Step 3 (fun j => if j < 2 then SQLITE_BUSY else SQLITE_ROW) 0 "m"
      = ((fun j => if j < 2 then SQLITE_BUSY else SQLITE_ROW) 2,
         DbiReport.silent)
    ∧ Step 3 (fun _ => SQLITE_BUSY) 0 "m"
      = (SQLITE_ERROR, DbiReport.exception "SQLIT" (busyMsg 3)) :=
  ⟨(Step_contention 3 (fun j => if j < 2 then SQLITE_BUSY else SQLITE_ROW)
      0 "m" 2).1
      (by intro j hj; interval_cases j <;> rfl)
      (by omega)
      (Or.inl rfl),
   (Step_contention 3 (fun _ => SQLITE_BUSY) 0 "m" 0).2 (fun _ => rfl)⟩

/-- The buffer ColumnValue reads has exactly the length that
sqlite3_column_bytes reports. -/
theorem columnSrc_length (col : SqliteValue) :
    (columnSrc col).length = column_bytes col := by
  cases col <;> rfl

/-- Claim C5: ColumnValue copies exactly
min(destination length, actual column byte length) bytes into the
caller's buffer — that prefix of the result equals the engine buffer's
prefix, the remainder of the destination is untouched, the
destination's size is preserved, and the copy count never exceeds the
destination's length even when the column value is longer. -/
theorem ColumnValue_copies_min (col : SqliteValue) (dest : List Nat) :
    (ColumnValue col dest).length = dest.length ∧
    min dest.length (column_bytes col) ≤ dest.length ∧
    (ColumnValue col dest).take (min dest.length (column_bytes col))
      = (columnSrc col).take (min dest.length (column_bytes col)) ∧
    (ColumnValue col dest).drop (min dest.length (column_bytes col))
      = dest.drop (min dest.length (column_bytes col)) := by
  have hnd : min dest.length (column_bytes col) ≤ dest.length :=
    min_le_left _ _
  have hns : min dest.length (column_bytes col)
      ≤ (columnSrc col).length := by
    rw [columnSrc_length]
    exact min_le_right _ _
  have hlen : ((columnSrc col).take
      (min dest.length (column_bytes col))).length
      = min dest.length (column_bytes col) := by
    rw [List.length_take]
    omega
  refine ⟨?_, hnd, ?_, ?_⟩
  · unfold ColumnValue memcpy
    rw [List.length_append, hlen, List.length_drop]
    omega
  · unfold ColumnValue memcpy
    rw [List.take_left' hlen]
  · unfold ColumnValue memcpy
    rw [List.drop_left' hlen]

/-- Claim C7: a transaction command at nesting depth at least one
fails immediately with the "no nested transactions" exception and no
SQL is issued to the engine; at depth zero the command's SQL is issued
— "begin exclusive" for a serializable begin, "begin" for any other
isolation, "commit" and "rollback" for the other commands. -/
theorem Transaction_nesting (depth : Nat) (cmd : TransactionCmd)
    (isolation : Isolation) (prepRc stepRc : String → Nat)
    (errcode : Nat) (errmsg : String) :
    (0 < depth →
      Transaction depth cmd isolation prepRc stepRc errcode errmsg
        = (NS_ERROR,
           DbiReport.exception "SQLIT"
             "dbilite does not support nested transactions",
           none)) ∧
    (depth = 0 →
      (Transaction depth cmd isolation prepRc stepRc errcode errmsg).2.2
        = some (transactionSql cmd isolation)) ∧
    transactionSql TransactionCmd.begin Isolation.serializable
      = "begin exclusive" ∧
    (isolation ≠ Isolation.serializable →
      transactionSql TransactionCmd.begin isolation = "begin") ∧
    transactionSql TransactionCmd.commit isolation = "commit" ∧
    transactionSql TransactionCmd.rollback isolation = "rollback" := by
  refine ⟨?_, ?_, rfl, ?_, rfl, rfl⟩
  · intro h
    unfold Transaction
    rw [if_pos (by omega)]
  · intro h
    subst h
    unfold Transaction
    rw [if_neg (by omega)]
    dsimp only
    split <;> rfl
  · intro h
    simp [transactionSql, h]

/-- Claim C7 witness: depth one is rejected without issuing SQL; depth
zero issues the serializable begin variant; the non-serializable begin
is plain. -/
theorem Transaction_nesting_witness :
    Transaction 1 TransactionCmd.begin Isolation.serializable
      (fun _ => SQLITE_OK) (fun _ => SQLITE_DONE) 0 "m"
      = (NS_ERROR,
         DbiReport.exception "SQLIT"
           "dbilite does not support nested transactions",
         none)
    ∧ (Transaction 0 TransactionCmd.begin Isolation.serializable
      (fun _ => SQLITE_OK) (fun _ => SQLITE_DONE) 0 "m").2.2
      = some (transactionSql TransactionCmd.begin Isolation.serializable)
    ∧ transactionSql TransactionCmd.begin Isolation.readCommitted
      = "begin" :=
  ⟨(Transaction_nesting 1 TransactionCmd.begin Isolation.serializable
      (fun _ => SQLITE_OK) (fun _ => SQLITE_DONE) 0 "m").1 (by omega),
   (Transaction_nesting 0 TransactionCmd.begin Isolation.serializable
      (fun _ => SQLITE_OK) (fun _ => SQLITE_DONE) 0 "m").2.1 rfl,
   (Transaction_nesting 0 TransactionCmd.begin Isolation.readCommitted
      (fun _ => SQLITE_OK) (fun _ => SQLITE_DONE) 0 "m").2.2.2.1
      (by decide)⟩

/-- While every earlier bind succeeded, the i-th call the bind loop
makes is the bind call for the i-th value at its shifted index. -/
theorem execBindAux_get (bindRc : Nat → Nat) (values : List DbiValue) :
    ∀ (base i : Nat) (h : i < values.length),
      (∀ j, j < i → bindRc (base + j) = SQLITE_OK) →
      ((execBindAux bindRc base values).1)[i]?
        = some (bindCallFor (base + i) values[i]) := by
  induction values with
  | nil =>
    intro base i h
    exact absurd h (by simp)
  | cons v rest ih =>
    intro base i h hprev
    match i with
    | 0 =>
      unfold execBindAux
      by_cases hb : bindRc base = SQLITE_OK
      · rw [if_pos hb]
        simp
      · rw [if_neg hb]
        simp
    | m + 1 =>
      have hb : bindRc base = SQLITE_OK := by
        simpa using hprev 0 (by omega)
      unfold execBindAux
      rw [if_pos hb]
      have hm : m < rest.length := by
        simpa using h
      have := ih (base + 1) m hm
        (fun j hj => by
          have := hprev (j + 1) (by omega)
          rwa [show base + (j + 1) = base + 1 + j by omega] at this)
      simp only [List.getElem?_cons_succ]
      rw [this]
      congr 1
      rw [show base + (m + 1) = base + 1 + m by omega]
      rfl

/-- If the binds before index i succeed and bind i fails, the bind
loop reports failure for the whole batch. -/
theorem execBindAux_fail (bindRc : Nat → Nat) (values : List DbiValue) :
    ∀ (base i : Nat), i < values.length →
      (∀ j, j < i → bindRc (base + j) = SQLITE_OK) →
      bindRc (base + i) ≠ SQLITE_OK →
      (execBindAux bindRc base values).2 = false := by
  induction values with
  | nil =>
    intro base i h
    exact absurd h (by simp)
  | cons v rest ih =>
    intro base i h hprev hfail
    match i with
    | 0 =>
      unfold execBindAux
      rw [if_neg (by simpa using hfail)]
    | m + 1 =>
      have hb : bindRc base = SQLITE_OK := by
        simpa using hprev 0 (by omega)
      unfold execBindAux
      rw [if_pos hb]
      exact ih (base + 1) m (by simpa using h)
        (fun j hj => by
          have := hprev (j + 1) (by omega)
          rwa [show base + (j + 1) = base + 1 + j by omega] at this)
        (by rwa [show base + 1 + m = base + (m + 1) by omega])

/-- Claim C4: for every value sequence and every 0-based index i whose
earlier binds succeeded, the i-th bind call targets native 1-based
position i+1 and is a null bind when the data pointer is null, a
fixed-length blob bind when flagged binary, and a fixed-length text
bind otherwise; the first bind failure makes Exec abort the whole
batch with NS_ERROR and the engine's reported error. -/
theorem Exec_bind_spec (values : List DbiValue) (bindRc : Nat → Nat)
    (i : Nat) (h : i < values.length)
    (hprev : ∀ j, j < i → bindRc j = SQLITE_OK) :
    (execBindCalls bindRc values)[i]? = some (bindCallFor i values[i]) ∧
    bindPos (bindCallFor i values[i]) = i + 1 ∧
    (values[i].data = none →
      bindCallFor i values[i] = BindCall.null (i + 1)) ∧
    (∀ bytes, values[i].data = some bytes → values[i].binary = true →
      bindCallFor i values[i]
        = BindCall.blob (i + 1) bytes (values[i].length)) ∧
    (∀ bytes, values[i].data = some bytes → values[i].binary = false →
      bindCallFor i values[i]
        = BindCall.text (i + 1) bytes (values[i].length)) ∧
    (bindRc i ≠ SQLITE_OK →
      ∀ (numCols retriesCfg : Nat) (engine : Nat → Nat)
        (errcode : Nat) (errmsg : String),
        Exec numCols values bindRc retriesCfg engine errcode errmsg
          = (NS_ERROR, ReportException errcode errmsg)) := by
  refine ⟨?_, ?_, ?_, ?_, ?_, ?_⟩
  · have := execBindAux_get bindRc values 0 i h
      (fun j hj => by simpa using hprev j hj)
    unfold execBindCalls
    simpa using this
  · unfold bindCallFor
    cases values[i].data with
    | none => rfl
    | some bytes =>
      dsimp only
      by_cases hb : values[i].binary = true
      · rw [if_pos hb]
        rfl
      · rw [if_neg hb]
        rfl
  · intro hd
    unfold bindCallFor
    rw [hd]
  · intro bytes hd hbin
    unfold bindCallFor
    rw [hd]
    dsimp only
    rw [if_pos hbin]
  · intro bytes hd hbin
    unfold bindCallFor
    rw [hd]
    dsimp only
    rw [if_neg (by simp [hbin])]
  · intro hfail numCols retriesCfg engine errcode errmsg
    have hko : execBindOk bindRc values = false := by
      unfold execBindOk
      exact execBindAux_fail bindRc values 0 i h
        (fun j hj => by simpa using hprev j hj) (by simpa using hfail)
    unfold Exec
    rw [if_pos hko]

/-- Claim C4 witness: a null value then a binary value, all binds
succeeding; the second call is a blob bind at native position 2. -/
theorem Exec_bind_spec_witness :
    (execBindCalls (fun _ => SQLITE_OK)
        [⟨none, 0, false⟩, ⟨some [7, 8], 2, true⟩])[1]?
      = some (bindCallFor 1 (⟨some [7, 8], 2, true⟩ : DbiValue))
    ∧ bindPos (bindCallFor 1 (⟨some [7, 8], 2, true⟩ : DbiValue)) = 2 := by
  have := Exec_bind_spec
    [⟨none, 0, false⟩, ⟨some [7, 8], 2, true⟩] (fun _ => SQLITE_OK) 1
    (by decide) (fun j _ => rfl)
  exact ⟨this.1, this.2.1⟩

/-- Claim C3: for a statement with zero result columns whose binds all
succeed, Exec itself drives the state machine after binding: a row
from Step is reported as the internal-bug error (never success), a
completed Step yields NS_OK, and Exec returns NS_OK exactly when Step
completed with SQLITE_DONE — a row is never exposed as success. -/
theorem Exec_zero_columns (values : List DbiValue) (bindRc : Nat → Nat)
    (retriesCfg : Nat) (engine : Nat → Nat) (errcode : Nat)
    (errmsg : String)
    (hbind : execBindOk bindRc values = true) :
    ((Step retriesCfg engine errcode errmsg).1 = SQLITE_ROW →
      Exec 0 values bindRc retriesCfg engine errcode errmsg
        = (NS_ERROR,
           DbiReport.exception "SQLIT"
             "dbilite: Exec: Bug: DML statement returned rows")) ∧
    ((Step retriesCfg engine errcode errmsg).1 = SQLITE_DONE →
      (Exec 0 values bindRc retriesCfg engine errcode errmsg).1
        = NS_OK) ∧
    ((Exec 0 values bindRc retriesCfg engine errcode errmsg).1 = NS_OK
      ↔ (Step retriesCfg engine errcode errmsg).1 = SQLITE_DONE) := by
  have hb' : ¬ (execBindOk bindRc values = false) := by
    simp [hbind]
  have hexec : Exec 0 values bindRc retriesCfg engine errcode errmsg
      = (if (Step retriesCfg engine errcode errmsg).1 = SQLITE_ROW then
          (NS_ERROR,
            DbiReport.exception "SQLIT"
              "dbilite: Exec: Bug: DML statement returned rows")
        else if (Step retriesCfg engine errcode errmsg).1 = SQLITE_DONE
        then (NS_OK, (Step retriesCfg engine errcode errmsg).2)
        else (NS_ERROR, (Step retriesCfg engine errcode errmsg).2)) := by
    unfold Exec
    rw [if_neg hb', if_neg (by omega)]
  refine ⟨?_, ?_, ?_⟩
  · intro h
    rw [hexec, if_pos h]
  · intro h
    rw [hexec, if_neg (by rw [h]; decide), if_pos h]
  · rw [hexec]
    by_cases h1 : (Step retriesCfg engine errcode errmsg).1 = SQLITE_ROW
    · rw [if_pos h1]
      constructor
      · intro hc
        exact absurd hc (by decide)
      · intro hc
        rw [h1] at hc
        exact absurd hc (by decide)
    · rw [if_neg h1]
      by_cases h2 :
          (Step retriesCfg engine errcode errmsg).1 = SQLITE_DONE
      · rw [if_pos h2]
        exact ⟨fun _ => h2, fun _ => rfl⟩
      · rw [if_neg h2]
        constructor
        · intro hc
          have hlift : NS_ERROR = NS_OK := hc
          exact absurd hlift (by decide)
        · intro hc
          exact absurd hc h2

/-- Claim C3 witness: an empty bind batch, a zero-column statement and
an engine that completes at once give NS_OK; the same with an engine
that yields a row gives the internal-bug error. -/
theorem Exec_zero_columns_witness :
    (Exec 0 [] (fun _ => SQLITE_OK) 1 (fun _ => SQLITE_DONE) 0 "m").1
      = NS_OK
    ∧ Exec 0 [] (fun _ => SQLITE_OK) 1 (fun _ => SQLITE_ROW) 0 "m"
      = (NS_ERROR,
         DbiReport.exception "SQLIT"
           "dbilite: Exec: Bug: DML statement returned rows") :=
  ⟨(Exec_zero_columns [] (fun _ => SQLITE_OK) 1 (fun _ => SQLITE_DONE)
      0 "m" rfl).2.1 rfl,
   (Exec_zero_columns [] (fun _ => SQLITE_OK) 1 (fun _ => SQLITE_ROW)
      0 "m" rfl).1 rfl⟩

/-- The retry loop of Step only ever calls sqlite3_step and
Ns_ThreadYield on the native statement: no finalize, no recompile. -/
theorem stepLoopCalls_no_recompile (engine : Nat → Nat) :
    ∀ (R k : Nat),
      LiteCall.finalize ∉ stepLoopCalls engine R k ∧
      LiteCall.reprepare ∉ stepLoopCalls engine R k := by
  intro R
  induction R using Nat.strong_induction_on with
  | _ R ih =>
    intro k
    match R with
    | 0 =>
      unfold stepLoopCalls
      split <;> simp
    | 1 =>
      unfold stepLoopCalls
      split <;> simp
    | n + 2 =>
      unfold stepLoopCalls
      split
      · have := ih (n + 1) (by omega) (k + 1)
        simp [this.1, this.2]
      · simp

/-- Claim C1 counterexample: with the engine reporting a schema-change
failure (SQLITE_SCHEMA) on the first step attempt, Step makes exactly
one sqlite3_step call — it never calls sqlite3_finalize and never
recompiles from the stored query text — and maps the result to
SQLITE_ERROR through its default branch.  The driver therefore does
not perform the finalize/recompile/install sequence the claim
describes. -/
theorem Step_schema_no_recompile_cex :
    StepCalls 100 (fun _ => SQLITE_SCHEMA) = [LiteCall.step]
    ∧ LiteCall.finalize ∉ StepCalls 100 (fun _ => SQLITE_SCHEMA)
    ∧ LiteCall.reprepare ∉ StepCalls 100 (fun _ => SQLITE_SCHEMA)
    ∧ Step 100 (fun _ => SQLITE_SCHEMA) SQLITE_SCHEMA
        "database schema has changed"
      = (SQLITE_ERROR,
         DbiReport.exception "SQLIT" "database schema has changed") :=
  ⟨rfl, by decide, by decide, rfl⟩

/-- Claim C1 amended: when a step attempt fails because of a schema
change, Step reports the engine's error as a "SQLIT" exception and
returns SQLITE_ERROR for that attempt — it never silently returns
success — and the driver itself performs no finalize or recompile of
the native statement (the statement was compiled with
sqlite3_prepare_v2, so any transparent recompilation happens inside
the engine, not in the driver). -/
theorem Step_schema_error_amended (retriesCfg : Nat)
    (engine : Nat → Nat) (errcode : Nat) (errmsg : String)
    (h0 : engine 0 = SQLITE_SCHEMA) (hnm : errcode ≠ SQLITE_NOMEM) :
    Step retriesCfg engine errcode errmsg
      = (SQLITE_ERROR, DbiReport.exception "SQLIT" errmsg)
    ∧ LiteCall.finalize ∉ StepCalls retriesCfg engine
    ∧ LiteCall.reprepare ∉ StepCalls retriesCfg engine := by
  have hloop : stepLoop engine retriesCfg 0 = SQLITE_SCHEMA := by
    match retriesCfg with
    | 0 => exact h0
    | 1 => exact h0
    | n + 2 =>
      unfold stepLoop
      rw [if_neg (by rw [h0]; decide)]
      exact h0
  refine ⟨?_, (stepLoopCalls_no_recompile engine retriesCfg 0).1,
    (stepLoopCalls_no_recompile engine retriesCfg 0).2⟩
  unfold Step
  rw [hloop]
  unfold stepSwitch
  rw [if_neg (by decide), if_neg (by decide), if_neg (by decide)]
  unfold ReportException
  rw [if_neg hnm]

/-- Claim C1 amended witness: a concrete schema-change failure is
reported as an error with no finalize or recompile call. -/
theorem Step_schema_error_amended_witness :
    Step 5 (fun _ => SQLITE_SCHEMA) SQLITE_SCHEMA "schema changed"
      = (SQLITE_ERROR, DbiReport.exception "SQLIT" "schema changed")
    ∧ LiteCall.finalize ∉ StepCalls 5 (fun _ => SQLITE_SCHEMA)
    ∧ LiteCall.reprepare ∉ StepCalls 5 (fun _ => SQLITE_SCHEMA) :=
  Step_schema_error_amended 5 (fun _ => SQLITE_SCHEMA) SQLITE_SCHEMA
    "schema changed" rfl (by decide)

end NsdbiLite
